import Mathlib

/-!
Shallow embedding of `app.py`, the session-authenticated billing web backend
(FastAPI application for a utility provider).

External collaborators (the redis session store, the OAuth/identity server's
token endpoint, the JWT library, the Oracle database's stored functions, the
current date and the uuid generator) are passed to the embedded handlers as
explicit parameters, so each handler is a pure function of its request data
and of the observable behaviour of those collaborators.  The effects a handler
performs (store writes and deletes, cookies, database calls) are returned as
explicit data.
-/

namespace BillingApp

/-- Model of Python's `str.endswith`: the characters of `post` are a suffix of
the characters of `s`.  Python strings are sequences of code points, modelled
as `String.data : List Char`. -/
def endswith (s post : String) : Bool :=
  List.isSuffixOf post.data s.data

/-- `get_role` (app.py 95-101).  Maps a username to its role by naming
suffix; a Python function that matches no branch falls off the end and
returns `None`, modelled as `none`. -/
def get_role (username : String) : Option String :=
  if endswith username "_u1" then some "customer"
  else if endswith username "_u2" then some "bank_cashier"
  else if endswith username "_u3" then some "disco_employee"
  else none

/-- `SESSION_COOKIE_NAME` (app.py 42). -/
def SESSION_COOKIE_NAME : String := "session_token"

/-- `SESSION_DURATION = datetime.timedelta(seconds = 15)` (app.py 43),
in whole seconds (`SESSION_DURATION.total_seconds()` equals `15.0`). -/
def SESSION_DURATION_seconds : Nat := 15

/-- A server-side session record as serialised into the redis store by the
callback handler (app.py 150-153), and equally the `user` dict returned by
`validate_session`. -/
structure SessionPayload where
  username : String
  role : Option String
  deriving DecidableEq

/-- The redis session store, observed through `redis_db.get`: a map from
session token to the deserialised payload (`none` when the key is absent or
expired). -/
def SessionStore : Type := String → Option SessionPayload

/-- Outcome of the per-request session dependency: either an
`HTTPException(status_code, detail)` or the `{"username": …, "role": …}`
dict handed to the route handler. -/
inductive VResult where
  | err (statusCode : Nat) (detail : String)
  | ok (username : String) (role : Option String)
  deriving DecidableEq

/-- `validate_session` (app.py 103-119).  `if not session_token` is Python
falsiness: it fires on a missing cookie and on an empty-string cookie alike.
`if not username` likewise fires on an empty username in the stored payload. -/
def validate_session (store : SessionStore) (session_token : Option String) : VResult :=
  match session_token with
  | none => .err 401 "Not authenticated. Session token missing"
  | some tok =>
    if tok = "" then .err 401 "Not authenticated. Session token missing"
    else
      match store tok with
      | none => .err 401 "Token has expired"
      | some payload =>
        if payload.username = "" then .err 401 "Username missing in session token"
        else .ok payload.username (get_role payload.username)

/-- Observable outcome of the POST to the identity server's token endpoint
(app.py 134-137): a `requests.exceptions.RequestException` (connection error
or `raise_for_status`), or a JSON body whose `token` field is
`token_info.get("token")`. -/
inductive ExchangeOutcome where
  | requestError (msg : String)
  | response (token : Option String)
  deriving DecidableEq

/-- Observable outcome of `jwt.decode(jwt_token, SECRET_KEY, algorithms=[ALGORITHM])`
(app.py 142): signature expired, otherwise invalid, or a verified claims
dict whose `sub` field is `decoded_token.get("sub")`. -/
inductive DecodeOutcome where
  | expired
  | invalid
  | ok (sub : Option String)
  deriving DecidableEq

/-- The effects of a successful `/callback`: the `setex` write into the
session store (key, payload fields, time-to-live in seconds), the redirect,
and the `set_cookie` call (app.py 148-166). -/
structure IssuedSession where
  storeKey : String
  storeUsername : String
  storeRole : Option String
  storeTtl : Nat
  redirectUrl : String
  redirectStatus : Nat
  cookieName : String
  cookieValue : String
  cookieMaxAge : Nat
  deriving DecidableEq

/-- Result of the `/callback` handler: an `HTTPException` or the issued
session with its redirect response. -/
inductive CallbackResult where
  | err (statusCode : Nat) (detail : String)
  | success (s : IssuedSession)
  deriving DecidableEq

/-- `getAccessToken`, the POST `/callback` handler (app.py 121-173).
`code` is the query parameter (`if not code` is Python falsiness), `exchange`
the token endpoint's observed outcome, `decode` the JWT library's verdict on
a given token string, and `freshId` the `str(uuid.uuid4())` value.  The
inner `raise HTTPException` statements are not caught by the `except`
clauses (they are neither `RequestException` nor jwt errors), so they
propagate. -/
def getAccessToken (code : Option String) (exchange : ExchangeOutcome)
    (decode : String → DecodeOutcome) (freshId : String) : CallbackResult :=
  match code with
  | none => .err 400 "Authorization code not provided/missing."
  | some c =>
    if c = "" then .err 400 "Authorization code not provided/missing."
    else
      match exchange with
      | .requestError msg => .err 500 ("Error fetching token: " ++ msg)
      | .response none => .err 401 "Failed to retrieve token."
      | .response (some tok) =>
        if tok = "" then .err 401 "Failed to retrieve token."
        else
          match decode tok with
          | .expired => .err 401 "Token has expired"
          | .invalid => .err 401 "Invalid Token"
          | .ok none => .err 401 "Invalid Token: Missing Username"
          | .ok (some username) =>
            if username = "" then .err 401 "Invalid Token: Missing Username"
            else .success {
              storeKey := freshId
              storeUsername := username
              storeRole := none
              storeTtl := 15
              redirectUrl := "/dashboard"
              redirectStatus := 302
              cookieName := SESSION_COOKIE_NAME
              cookieValue := freshId
              cookieMaxAge := SESSION_DURATION_seconds }

/-- The hard-coded welcome-page URL the app redirects to (app.py 180, 192). -/
def WELCOME_PAGE_URL : String := "https://168.138.178.200"

/-- A response produced by the application-wide `HTTPException` handler. -/
inductive HandlerResponse where
  | redirect (url : String) (statusCode : Nat)
  | json (statusCode : Nat) (detail : String)
  deriving DecidableEq

/-- `custom_http_exception_handler` (app.py 177-182), applied to the status
code and detail of the raised `HTTPException`. -/
def custom_http_exception_handler (statusCode : Nat) (detail : String) : HandlerResponse :=
  if statusCode = 401 ∧ detail = "Token has expired" then .redirect WELCOME_PAGE_URL 302
  else .json statusCode detail

/-- The effects of `/sign-out`: the store key deleted via `redis_db.delete`
(if any), the redirect, and the cookie removed via `delete_cookie`. -/
structure SignOutResult where
  storeDelete : Option String
  redirectUrl : String
  redirectStatus : Nat
  cookieDeleted : String
  deriving DecidableEq

/-- `sign_out`, the GET `/sign-out` handler (app.py 185-196).  `if
session_token:` is Python falsiness, so an empty-string cookie skips the
store delete. -/
def sign_out (session_token : Option String) : SignOutResult :=
  ⟨match session_token with
   | some tok => if tok = "" then none else some tok
   | none => none,
   WELCOME_PAGE_URL, 302, SESSION_COOKIE_NAME⟩

/-- Result of an access-controlled GET page handler: an `HTTPException` or a
rendered template. -/
inductive PageResult where
  | err (statusCode : Nat) (detail : String)
  | page (templateName : String)
  deriving DecidableEq

/-- Route path in the decorator `@app.get("/bill-payment")` (app.py 207). -/
def bill_payment_route : String := "/bill-payment"

/-- Route path in the decorator `@app.get("/bill-retrieval")` (app.py 215). -/
def bill_retrieval_route : String := "/bill-retrieval"

/-- Route path in the decorator `@app.get("/bill-adjustments")` (app.py 223). -/
def bill_adjustments_route : String := "/bill-adjustments"

/-- The `function` name `get_bill_payment` passes to
`access_ctrl.is_allowed` (app.py 209). -/
def get_bill_payment_function : String := "/bill-payment"

/-- The `function` name `get_bill_retrieval` passes to
`access_ctrl.is_allowed` (app.py 217). -/
def get_bill_retrieval_function : String := "/bill-retrieval"

/-- The `function` name `get_bill_adjustment` passes to
`access_ctrl.is_allowed` (app.py 225). -/
def get_bill_adjustment_function : String := "/bill-adjustment"

/-- `get_bill_payment` (app.py 207-212), parameterised by the Access
Controller's `is_allowed` answer and by the `user` dict produced by the
`validate_session` dependency. -/
def get_bill_payment (is_allowed : Option String → String → Bool)
    (user : SessionPayload) : PageResult :=
  if ¬ is_allowed user.role get_bill_payment_function then .err 403 "Forbidden"
  else .page "bill_payment.html"

/-- `get_bill_retrieval` (app.py 215-220). -/
def get_bill_retrieval (is_allowed : Option String → String → Bool)
    (user : SessionPayload) : PageResult :=
  if ¬ is_allowed user.role get_bill_retrieval_function then .err 403 "Forbidden"
  else .page "bill_retrieval.html"

/-- `get_bill_adjustment` (app.py 223-228). -/
def get_bill_adjustment (is_allowed : Option String → String → Bool)
    (user : SessionPayload) : PageResult :=
  if ¬ is_allowed user.role get_bill_adjustment_function then .err 403 "Forbidden"
  else .page "bill_adjustments.html"

/-- The part of `datetime.datetime.now()` the handlers observe. -/
structure DateTime where
  year : Nat
  month : Nat
  deriving DecidableEq

/-- A call to one of the database's stored functions, with its arguments in
source order.  Monetary amounts are modelled as rationals. -/
inductive DBCall where
  | processPayment (billId : Int) (paymentDate : DateTime) (methodId : Int) (amount : ℚ)
  | adjustBill (adjustmentId : Int) (billId : Int) (adjustmentDate : DateTime)
      (officerName : String) (officerDesignation : String)
      (originalAmount : ℚ) (adjustmentAmount : ℚ) (reason : String)
  deriving DecidableEq

/-- Observable behaviour of the Oracle database during one POST request:
the `BILL` row lookup (`TotalAmount_BeforeDueDate` when the bill exists),
the `PAYMENTDETAILS.PaymentStatus` column as its Python truthiness (`none`
when the row is absent, so that `fetchone()[0]` would throw), the
`PaymentMethods` description lookup, and the return values of the two
stored functions. -/
structure BillingDB where
  bill : Int → Option ℚ
  paymentStatus : Int → Option Bool
  methodDescription : Int → Option String
  processPaymentResult : Int
  adjustResult : Int

/-- A response of a POST billing handler: a rendered `error.html`, another
rendered template, or an uncaught exception (`fetchone()` returned `None`
and was indexed). -/
inductive PageResponse where
  | errorPage (msg : String)
  | template (templateName : String)
  | crash
  deriving DecidableEq

/-- `post_bill_payment` (app.py 236-274).  The handler takes no session and
no role: its signature has only the form fields.  Returns the list of stored
functions it called together with its response. -/
def post_bill_payment (db : BillingDB) (now : DateTime)
    (bill_id : Int) (amount : ℚ) (payment_method_id : Int) :
    List DBCall × PageResponse :=
  match db.bill bill_id with
  | none => ([], .errorPage "Invalid BillID provided.")
  | some _ =>
    let call := DBCall.processPayment bill_id now payment_method_id amount
    if db.processPaymentResult ≠ 1 then
      ([call], .errorPage "An error occured while processing the request. Please try again. Make sure the values are correct")
    else
      match db.paymentStatus bill_id with
      | none => ([call], .crash)
      | some _ =>
        match db.methodDescription payment_method_id with
        | none => ([call], .crash)
        | some _ => ([call], .template "payment_receipt.html")

/-- `adjustment_id = int(str(bill_id) + str(adjustment_DATE.year) +
str(adjustment_DATE.month))` (app.py 374). -/
def adjustment_id_of (bill_id : Int) (now : DateTime) : Int :=
  (toString bill_id ++ toString now.year ++ toString now.month).toInt!

/-- `post_bill_adjustments` (app.py 337-393).  Like `post_bill_payment` it
takes no session and no role. -/
def post_bill_adjustments (db : BillingDB) (now : DateTime)
    (bill_id : Int) (officer_name : String) (officer_designation : String)
    (original_bill_amount : ℚ) (adjustment_amount : ℚ)
    (adjustment_reason : String) : List DBCall × PageResponse :=
  match db.bill bill_id with
  | none => ([], .errorPage "Invalid BillID provided.")
  | some amount_due =>
    if original_bill_amount ≠ amount_due then
      ([], .errorPage "The original bill amount provided does not match the actual amount due.")
    else
      match db.paymentStatus bill_id with
      | none => ([], .crash)
      | some ps =>
        if ps then
          ([], .errorPage "The bill has already been paid. Adjustments cannot be made to a paid bill.")
        else
          let call := DBCall.adjustBill (adjustment_id_of bill_id now) bill_id now
            officer_name officer_designation original_bill_amount adjustment_amount
            adjustment_reason
          if db.adjustResult = 1 then
            ([call], .template "adjustment_receipt.html")
          else
            ([call], .errorPage "An error occured while processing the request. Please try again. Make sure the values are correct")

/-!  Helper lemmas shared by the theorems below. -/

/-- Two suffixes of the same string whose lengths agree are equal. -/
theorem endswith_eq_of_length {u a b : String} (ha : endswith u a = true)
    (hb : endswith u b = true) (hlen : a.data.length = b.data.length) : a = b := by
  have ha' : a.data <:+ u.data := by
    simpa [endswith, List.isSuffixOf_iff_suffix] using ha
  have hb' : b.data <:+ u.data := by
    simpa [endswith, List.isSuffixOf_iff_suffix] using hb
  rcases List.suffix_or_suffix_of_suffix ha' hb' with h | h
  · exact String.ext (h.eq_of_length hlen)
  · exact (String.ext (h.eq_of_length hlen.symm)).symm

/-- A string ending in `"_u2"` does not end in `"_u1"`. -/
theorem endswith_u2_not_u1 {u : String} (h : endswith u "_u2" = true) :
    endswith u "_u1" = false := by
  cases hh : endswith u "_u1" with
  | false => rfl
  | true => exact absurd (endswith_eq_of_length hh h (by decide)) (by decide)

/-- A string ending in `"_u3"` does not end in `"_u1"`. -/
theorem endswith_u3_not_u1 {u : String} (h : endswith u "_u3" = true) :
    endswith u "_u1" = false := by
  cases hh : endswith u "_u1" with
  | false => rfl
  | true => exact absurd (endswith_eq_of_length hh h (by decide)) (by decide)

/-- A string ending in `"_u3"` does not end in `"_u2"`. -/
theorem endswith_u3_not_u2 {u : String} (h : endswith u "_u3" = true) :
    endswith u "_u2" = false := by
  cases hh : endswith u "_u2" with
  | false => rfl
  | true => exact absurd (endswith_eq_of_length hh h (by decide)) (by decide)

/-- C6: the derived role is determined by the username's naming suffix:
`_u1` maps to the customer role, `_u2` to the bank-cashier role and `_u3` to
the utility (disco) employee role. -/
theorem C6_get_role_by_suffix (u : String) :
    (endswith u "_u1" = true → get_role u = some "customer")
    ∧ (endswith u "_u2" = true → get_role u = some "bank_cashier")
    ∧ (endswith u "_u3" = true → get_role u = some "disco_employee") := by
  refine ⟨fun h1 => ?_, fun h2 => ?_, fun h3 => ?_⟩
  · simp [get_role, h1]
  · simp [get_role, endswith_u2_not_u1 h2, h2]
  · simp [get_role, endswith_u3_not_u1 h3, endswith_u3_not_u2 h3, h3]

/-- Witness for C6 at the three concrete usernames. -/
theorem C6_witness :
    get_role "alice_u1" = some "customer"
    ∧ get_role "bob_u2" = some "bank_cashier"
    ∧ get_role "carol_u3" = some "disco_employee" :=
  ⟨(C6_get_role_by_suffix "alice_u1").1 (by decide),
   (C6_get_role_by_suffix "bob_u2").2.1 (by decide),
   (C6_get_role_by_suffix "carol_u3").2.2 (by decide)⟩

/-- C8: a username with none of the three suffixes gets no role, and
`validate_session` nevertheless succeeds, returning that username with a
`none` role. -/
theorem C8_no_suffix_role_none (store : SessionStore) (tok u : String)
    (r : Option String) (htok : tok ≠ "") (hstore : store tok = some ⟨u, r⟩)
    (hu : u ≠ "") (h1 : endswith u "_u1" = false) (h2 : endswith u "_u2" = false)
    (h3 : endswith u "_u3" = false) :
    get_role u = none ∧ validate_session store (some tok) = VResult.ok u none := by
  have hrole : get_role u = none := by simp [get_role, h1, h2, h3]
  exact ⟨hrole, by simp [validate_session, htok, hstore, hu, hrole]⟩

/-- Session store used by the C8 witness: one session for user `admin`. -/
def C8store : SessionStore :=
  fun t => if t = "tok8" then some ⟨"admin", none⟩ else none

/-- Witness for C8 at a concrete store and the suffix-less username
`admin`. -/
theorem C8_witness :
    get_role "admin" = none
    ∧ validate_session C8store (some "tok8") = VResult.ok "admin" none :=
  C8_no_suffix_role_none C8store "tok8" "admin" none (by decide)
    (by simp [C8store]) (by decide) (by decide) (by decide) (by decide)

/-- Session store for the C2 counterexample: the token `tok2` is present but
its stored payload carries an empty username. -/
def C2store : SessionStore :=
  fun t => if t = "tok2" then some ⟨"", none⟩ else none

/-- C2 counterexample: with the cookie present and the token in the store,
`validate_session` does not return the stored username with its derived
role; it raises 401 "Username missing in session token" because the stored
username is empty. -/
theorem C2_counterexample :
    validate_session C2store (some "tok2")
      = VResult.err 401 "Username missing in session token"
    ∧ validate_session C2store (some "tok2") ≠ VResult.ok "" (get_role "") := by
  refine ⟨rfl, fun h => ?_⟩
  rw [show validate_session C2store (some "tok2")
    = VResult.err 401 "Username missing in session token" from rfl] at h
  exact VResult.noConfusion h

/-- C2 (amended): `validate_session` raises 401 "Not authenticated. Session
token missing" when the cookie is absent or empty; 401 "Token has expired"
when the nonempty token is not in the store; 401 "Username missing in
session token" when the stored payload's username is empty; and otherwise
returns the stored username with the role derived from it. -/
theorem C2_validate_session (store : SessionStore) (cookie : Option String) :
    ((cookie = none ∨ cookie = some "") →
      validate_session store cookie
        = VResult.err 401 "Not authenticated. Session token missing")
    ∧ (∀ tok, cookie = some tok → tok ≠ "" → store tok = none →
      validate_session store cookie = VResult.err 401 "Token has expired")
    ∧ (∀ tok p, cookie = some tok → tok ≠ "" → store tok = some p →
      p.username = "" →
      validate_session store cookie
        = VResult.err 401 "Username missing in session token")
    ∧ (∀ tok p, cookie = some tok → tok ≠ "" → store tok = some p →
      p.username ≠ "" →
      validate_session store cookie
        = VResult.ok p.username (get_role p.username)) := by
  refine ⟨fun h => ?_, fun tok h1 h2 h3 => ?_, fun tok p h1 h2 h3 h4 => ?_,
    fun tok p h1 h2 h3 h4 => ?_⟩
  · rcases h with h | h <;> subst h <;> simp [validate_session]
  · subst h1; simp [validate_session, h2, h3]
  · subst h1; simp [validate_session, h2, h3, h4]
  · subst h1; simp [validate_session, h2, h3, h4]

/-- Session store for the C2 witness: one valid session for `alice_u1`. -/
def C2wstore : SessionStore :=
  fun t => if t = "tokw" then some ⟨"alice_u1", none⟩ else none

/-- Witness for C2's amended theorem at a concrete store and cookie. -/
theorem C2_witness :
    validate_session C2wstore (some "tokw") = VResult.ok "alice_u1" (some "customer") := by
  have h := (C2_validate_session C2wstore (some "tokw")).2.2.2 "tokw"
    ⟨"alice_u1", none⟩ rfl (by decide) (by simp [C2wstore]) (by decide)
  simpa [get_role] using h

/-- C5: an `HTTPException` with status 401 and detail "Token has expired" is
turned into a 302 redirect to the welcome page; every other `HTTPException`
becomes a JSON response carrying its own status code and detail. -/
theorem C5_exception_handler (statusCode : Nat) (detail : String) :
    ((statusCode = 401 ∧ detail = "Token has expired") →
      custom_http_exception_handler statusCode detail
        = HandlerResponse.redirect WELCOME_PAGE_URL 302)
    ∧ (¬ (statusCode = 401 ∧ detail = "Token has expired") →
      custom_http_exception_handler statusCode detail
        = HandlerResponse.json statusCode detail) := by
  unfold custom_http_exception_handler
  exact ⟨fun h => if_pos h, fun h => if_neg h⟩

/-- Witness for C5: the expiry exception redirects, a 404 is returned as
JSON. -/
theorem C5_witness :
    custom_http_exception_handler 401 "Token has expired"
      = HandlerResponse.redirect WELCOME_PAGE_URL 302
    ∧ custom_http_exception_handler 404 "Not Found"
      = HandlerResponse.json 404 "Not Found" :=
  ⟨(C5_exception_handler 401 "Token has expired").1 ⟨rfl, rfl⟩,
   (C5_exception_handler 404 "Not Found").2 (by decide)⟩

/-- C10 counterexample: a request carrying an empty-string session cookie
has a cookie present, yet `sign_out` performs no store delete (Python's
`if session_token:` treats `""` as false). -/
theorem C10_counterexample :
    (sign_out (some "")).storeDelete = none
    ∧ (some "" : Option String).isSome = true := by
  constructor <;> rfl

/-- C10 (amended): `sign_out` always responds with a 302 redirect and
deletes the session cookie; the server-side record is deleted from the
store exactly when a nonempty session cookie was sent, and then the deleted
key is the cookie's token. -/
theorem C10_sign_out (cookie : Option String) :
    (sign_out cookie).redirectStatus = 302
    ∧ (sign_out cookie).redirectUrl = WELCOME_PAGE_URL
    ∧ (sign_out cookie).cookieDeleted = SESSION_COOKIE_NAME
    ∧ ((sign_out cookie).storeDelete.isSome
        ↔ ∃ tok, cookie = some tok ∧ tok ≠ "")
    ∧ (∀ tok, cookie = some tok → tok ≠ "" →
        (sign_out cookie).storeDelete = some tok) := by
  refine ⟨rfl, rfl, rfl, ?_, fun tok h1 h2 => ?_⟩
  · cases cookie with
    | none => simp [sign_out]
    | some tok =>
      by_cases h : tok = "" <;> simp [sign_out, h]
  · subst h1; simp [sign_out, h2]

/-- Witness for C10's amended theorem at a concrete nonempty cookie. -/
theorem C10_witness : (sign_out (some "tokX")).storeDelete = some "tokX" :=
  (C10_sign_out (some "tokX")).2.2.2.2 "tokX" rfl (by decide)

/-- Any successful run of `getAccessToken` issued its session with a
15-second store time-to-live and a cookie max-age of
`SESSION_DURATION_seconds`. -/
theorem getAccessToken_success_ttl {code : Option String}
    {exchange : ExchangeOutcome} {decode : String → DecodeOutcome}
    {freshId : String} {s : IssuedSession}
    (h : getAccessToken code exchange decode freshId = CallbackResult.success s) :
    s.storeTtl = 15 ∧ s.cookieMaxAge = SESSION_DURATION_seconds := by
  unfold getAccessToken at h
  repeat' split at h
  all_goals first
    | exact CallbackResult.noConfusion h
    | (injection h with h2; subst h2; exact ⟨rfl, rfl⟩)

/-- C3: when the code exchange yields a JWT that verifies and carries a
`sub` username, `/callback` stores a record with that username under the
fresh opaque session identifier, with the identifier as the cookie value,
and redirects 302 to `/dashboard`; a missing code raises 400, and an
absent, expired or invalid JWT raises 401. -/
theorem C3_callback_flow (code : Option String) (exchange : ExchangeOutcome)
    (decode : String → DecodeOutcome) (freshId : String) :
    (∀ c tok username, code = some c → c ≠ "" →
      exchange = ExchangeOutcome.response (some tok) → tok ≠ "" →
      decode tok = DecodeOutcome.ok (some username) → username ≠ "" →
      getAccessToken code exchange decode freshId = CallbackResult.success
        ⟨freshId, username, none, 15, "/dashboard", 302,
         SESSION_COOKIE_NAME, freshId, SESSION_DURATION_seconds⟩)
    ∧ (code = none →
      getAccessToken code exchange decode freshId
        = CallbackResult.err 400 "Authorization code not provided/missing.")
    ∧ (∀ c, code = some c → c ≠ "" →
      exchange = ExchangeOutcome.response none →
      getAccessToken code exchange decode freshId
        = CallbackResult.err 401 "Failed to retrieve token.")
    ∧ (∀ c tok, code = some c → c ≠ "" →
      exchange = ExchangeOutcome.response (some tok) → tok ≠ "" →
      decode tok = DecodeOutcome.expired →
      getAccessToken code exchange decode freshId
        = CallbackResult.err 401 "Token has expired")
    ∧ (∀ c tok, code = some c → c ≠ "" →
      exchange = ExchangeOutcome.response (some tok) → tok ≠ "" →
      decode tok = DecodeOutcome.invalid →
      getAccessToken code exchange decode freshId
        = CallbackResult.err 401 "Invalid Token") := by
  refine ⟨fun c tok username h1 h2 h3 h4 h5 h6 => ?_, fun h1 => ?_,
    fun c h1 h2 h3 => ?_, fun c tok h1 h2 h3 h4 h5 => ?_,
    fun c tok h1 h2 h3 h4 h5 => ?_⟩
  · subst h1 h3; simp [getAccessToken, h2, h4, h5, h6]
  · subst h1; rfl
  · subst h1 h3; simp [getAccessToken, h2]
  · subst h1 h3; simp [getAccessToken, h2, h4, h5]
  · subst h1 h3; simp [getAccessToken, h2, h4, h5]

/-- JWT decoder used by the C3 witness: `jwt1` verifies with subject
`alice_u1`, everything else is invalid. -/
def C3decode : String → DecodeOutcome :=
  fun tok => if tok = "jwt1" then DecodeOutcome.ok (some "alice_u1")
    else DecodeOutcome.invalid

/-- Witness for C3 at a concrete code, token-endpoint response, decoder and
fresh session id. -/
theorem C3_witness :
    getAccessToken (some "authcode") (ExchangeOutcome.response (some "jwt1"))
      C3decode "sid-1" = CallbackResult.success
        ⟨"sid-1", "alice_u1", none, 15, "/dashboard", 302,
         SESSION_COOKIE_NAME, "sid-1", SESSION_DURATION_seconds⟩ :=
  (C3_callback_flow (some "authcode")
      (ExchangeOutcome.response (some "jwt1")) C3decode "sid-1").1
    "authcode" "jwt1" "alice_u1" rfl (by decide) rfl (by decide)
    (by simp [C3decode]) (by decide)

/-- C7: every session issued by `/callback` is written to the store with a
15-second time-to-live, and the cookie's max-age equals the same 15-second
session duration. -/
theorem C7_session_lifetime (code : Option String) (exchange : ExchangeOutcome)
    (decode : String → DecodeOutcome) (freshId : String) (s : IssuedSession)
    (h : getAccessToken code exchange decode freshId = CallbackResult.success s) :
    s.storeTtl = 15 ∧ s.cookieMaxAge = SESSION_DURATION_seconds
    ∧ SESSION_DURATION_seconds = 15 := by
  obtain ⟨h1, h2⟩ := getAccessToken_success_ttl h
  exact ⟨h1, h2, rfl⟩

/-- Witness for C7 at the concrete successful callback run of the C3
witness inputs. -/
theorem C7_witness :
    (⟨"sid-1", "alice_u1", none, 15, "/dashboard", 302,
      SESSION_COOKIE_NAME, "sid-1", SESSION_DURATION_seconds⟩ :
        IssuedSession).storeTtl = 15
    ∧ (⟨"sid-1", "alice_u1", none, 15, "/dashboard", 302,
      SESSION_COOKIE_NAME, "sid-1", SESSION_DURATION_seconds⟩ :
        IssuedSession).cookieMaxAge = SESSION_DURATION_seconds
    ∧ SESSION_DURATION_seconds = 15 :=
  C7_session_lifetime (some "authcode")
    (ExchangeOutcome.response (some "jwt1")) C3decode "sid-1" _
    (by simp [getAccessToken, C3decode])

/-- C4 counterexample: the GET `/bill-adjustments` handler asks the Access
Controller about the function name `/bill-adjustment`, which is not the
route path `/bill-adjustments` of that handler. -/
theorem C4_counterexample :
    get_bill_adjustment_function = "/bill-adjustment"
    ∧ bill_adjustments_route = "/bill-adjustments"
    ∧ get_bill_adjustment_function ≠ bill_adjustments_route := by
  refine ⟨rfl, rfl, ?_⟩
  decide

/-- C4 (amended): the GET `/bill-payment` and `/bill-retrieval` handlers
pass their own route path to `is_allowed`, while the GET `/bill-adjustments`
handler passes the singular name `/bill-adjustment`, which differs from its
route path. -/
theorem C4_route_vs_function :
    get_bill_payment_function = bill_payment_route
    ∧ get_bill_retrieval_function = bill_retrieval_route
    ∧ get_bill_adjustment_function = "/bill-adjustment"
    ∧ bill_adjustments_route = "/bill-adjustments"
    ∧ get_bill_adjustment_function ≠ bill_adjustments_route := by
  refine ⟨rfl, rfl, rfl, rfl, ?_⟩
  decide

/-- Database used by the C1 theorem: bill 1 exists with amount due 100,
unpaid, payment method 2 known, and both stored functions succeed. -/
def C1db : BillingDB :=
  ⟨fun b => if b = 1 then some 100 else none,
   fun b => if b = 1 then some false else none,
   fun m => if m = 2 then some "Credit Card" else none, 1, 1⟩

/-- C1: the POST `/bill-payment` handler takes no session and consults no
Access Controller (its embedding has no `is_allowed` or role input at all),
yet it performs the billing work: at a concrete request it calls the stored
function `fun_process_Payment` and renders a receipt, for any requester. -/
theorem C1_post_payment_unguarded :
    post_bill_payment C1db ⟨2025, 10⟩ 1 100 2
      = ([DBCall.processPayment 1 ⟨2025, 10⟩ 2 100],
         PageResponse.template "payment_receipt.html") := by
  decide

/-- C9: the POST `/bill-adjustments` handler calls the stored function
`fun_adjust_Bill` exactly when the bill exists, the submitted original
amount equals the stored amount due before the due date, and the bill's
payment status is unpaid (falsy); in every other case it renders the error
page and makes no stored-function call, leaving the adjustment ledger
unchanged.  The hypothesis is the database invariant that an existing bill
has a `PAYMENTDETAILS` row. -/
theorem C9_adjustments_guard (db : BillingDB) (now : DateTime) (bill_id : Int)
    (officer_name officer_designation : String)
    (original_bill_amount adjustment_amount : ℚ) (adjustment_reason : String)
    (hwf : (db.bill bill_id).isSome → (db.paymentStatus bill_id).isSome) :
    ((post_bill_adjustments db now bill_id officer_name officer_designation
        original_bill_amount adjustment_amount adjustment_reason).1 ≠ []
      ↔ db.bill bill_id = some original_bill_amount
        ∧ db.paymentStatus bill_id = some false)
    ∧ (¬ (db.bill bill_id = some original_bill_amount
          ∧ db.paymentStatus bill_id = some false) →
        ∃ msg, post_bill_adjustments db now bill_id officer_name
          officer_designation original_bill_amount adjustment_amount
          adjustment_reason = ([], PageResponse.errorPage msg)) := by
  rcases hb : db.bill bill_id with _ | amount_due
  · refine ⟨?_, fun _ => ⟨"Invalid BillID provided.", ?_⟩⟩ <;>
      simp [post_bill_adjustments, hb]
  · have hps : ∃ ps, db.paymentStatus bill_id = some ps := by
      rcases hp : db.paymentStatus bill_id with _ | ps
      · exact absurd (hwf (by simp [hb])) (by simp [hp])
      · exact ⟨ps, rfl⟩
    obtain ⟨ps, hp⟩ := hps
    by_cases he : original_bill_amount = amount_due
    · subst he
      cases ps
      · by_cases hr : db.adjustResult = 1 <;>
          simp [post_bill_adjustments, hb, hp, hr]
      · refine ⟨?_, fun _ => ⟨"The bill has already been paid. Adjustments cannot be made to a paid bill.", ?_⟩⟩ <;>
          simp [post_bill_adjustments, hb, hp]
    · refine ⟨?_, fun _ => ⟨"The original bill amount provided does not match the actual amount due.", ?_⟩⟩
      · simp [post_bill_adjustments, hb, he]
        exact fun h => absurd h.symm he
      · simp [post_bill_adjustments, hb, he]

/-- Database used by the C9 witness: no bill exists. -/
def C9db : BillingDB :=
  ⟨fun _ => none, fun _ => some false, fun _ => none, 1, 1⟩

/-- Witness for C9 at a concrete database without the requested bill: no
stored-function call is made and the error page is rendered. -/
theorem C9_witness :
    (((post_bill_adjustments C9db ⟨2025, 10⟩ 7 "Jane Roe" "Officer"
        250 (-50) "meter misread").1 ≠ []
      ↔ C9db.bill 7 = some 250 ∧ C9db.paymentStatus 7 = some false)
    ∧ (¬ (C9db.bill 7 = some 250 ∧ C9db.paymentStatus 7 = some false) →
        ∃ msg, post_bill_adjustments C9db ⟨2025, 10⟩ 7 "Jane Roe" "Officer"
          250 (-50) "meter misread" = ([], PageResponse.errorPage msg))) :=
  C9_adjustments_guard C9db ⟨2025, 10⟩ 7 "Jane Roe" "Officer" 250 (-50)
    "meter misread" (by simp [C9db])

end BillingApp
